import Mathlib

/-!
Verification development for the stremio2embedin service (src/index.js).

The JavaScript source is shallowly embedded: pure string manipulation is
translated into Lean functions over `String`/`List Char`, the Fastify route
handlers become pure functions from their inputs (path parameters, the
`format` query value, and the result of the single upstream fetch) to a
`Response` value, and the process-wide configuration globals become a
`ServerState` record threaded explicitly.
-/

namespace Stremio2Embedin

/-! ## Generic string helpers (List Char based, so proofs stay elementary) -/

/-- `startsWithList s p` is true when `p` is a prefix of `s`. -/
def startsWithList : List Char → List Char → Bool
  | _, [] => true
  | [], _ :: _ => false
  | c :: cs, p :: ps => c == p && startsWithList cs ps

/-- `containsList s pat` is true when `pat` occurs contiguously inside `s`;
this is the semantics of JavaScript `String.prototype.includes`. -/
def containsList : List Char → List Char → Bool
  | [], pat => startsWithList [] pat
  | c :: cs, pat => startsWithList (c :: cs) pat || containsList cs pat

/-- JavaScript `s.includes(pat)`. -/
def strIncludes (s pat : String) : Bool := containsList s.data pat.data

/-- `endsWithStr s t` is true when `t` is a suffix of `s`
(JavaScript `s.endsWith(t)`). -/
def endsWithStr (s t : String) : Bool := startsWithList s.data.reverse t.data.reverse

/-- Drop the last `n` characters of a string. -/
def dropRightStr (s : String) (n : Nat) : String := String.mk (s.data.reverse.drop n).reverse

/-- The whitespace class used by JavaScript `String.prototype.trim` and by
`ToNumber` on strings (ASCII whitespace, NBSP and the BOM; exotic Unicode
space characters never occur in the inputs considered here). -/
def isJsWhitespaceChar (c : Char) : Bool :=
  c == ' ' || c == '\t' || c == '\n' || c == '\r' || c == '\x0b' || c == '\x0c' ||
    c == '\xa0' || c == '\uFEFF'

/-- Strip leading and trailing JS whitespace from a character list. -/
def jsTrimL (l : List Char) : List Char :=
  ((l.dropWhile isJsWhitespaceChar).reverse.dropWhile isJsWhitespaceChar).reverse

/-- JavaScript `s.trim()`. -/
def jsTrim (s : String) : String := String.mk (jsTrimL s.data)

/-- JavaScript `a || b` for an optional string `a` (absent/null ↦ `none`):
the fallback `b` is used when `a` is absent or the empty string (falsy). -/
def jsOr (v : Option String) (d : String) : String :=
  match v with
  | some s => if s == "" then d else s
  | none => d

/-! ## JavaScript number coercion (`isNaN(string)`)

`isNaN(x)` on a string argument applies `ToNumber`, which trims whitespace
and then accepts the empty remainder (as 0), a signed decimal literal with
optional fraction and exponent, `Infinity` with optional sign, or an
unsigned `0x`/`0o`/`0b` radix literal.  `jsIsNaN s = true` exactly when the
coercion yields NaN. -/

def isHexDigitChar (c : Char) : Bool :=
  c.isDigit || ('a' ≤ c && c ≤ 'f') || ('A' ≤ c && c ≤ 'F')

def isOctDigitChar (c : Char) : Bool := '0' ≤ c && c ≤ '7'

def isBinDigitChar (c : Char) : Bool := c == '0' || c == '1'

/-- An optional exponent part: empty, or `e`/`E`, an optional sign and at
least one digit, consuming the entire remainder. -/
def checkExponentPart : List Char → Bool
  | [] => true
  | c :: rest =>
    if c == 'e' || c == 'E' then
      let body := match rest with
        | d :: ds => if d == '+' || d == '-' then ds else d :: ds
        | [] => []
      !body.isEmpty && body.all Char.isDigit
    else false

def infinityChars : List Char := ['I', 'n', 'f', 'i', 'n', 'i', 't', 'y']

/-- `StrUnsignedDecimalLiteral`: `Infinity`, or digits with an optional
fraction and exponent (one of the digit groups around `.` may be empty,
but not both). -/
def isUnsignedDecimalLiteral (l : List Char) : Bool :=
  if l = infinityChars then true
  else
    let ds := l.takeWhile Char.isDigit
    let rest := l.dropWhile Char.isDigit
    match rest with
    | '.' :: rest2 =>
      let ds2 := rest2.takeWhile Char.isDigit
      let rest3 := rest2.dropWhile Char.isDigit
      (!ds.isEmpty || !ds2.isEmpty) && checkExponentPart rest3
    | _ => !ds.isEmpty && checkExponentPart rest

/-- Strip one optional sign character. -/
def stripSign (l : List Char) : List Char :=
  match l with
  | c :: rest => if c == '+' || c == '-' then rest else l
  | [] => []

/-- A complete (already trimmed, non-empty) `StringNumericLiteral`. -/
def isStrNumericLiteral (l : List Char) : Bool :=
  match l with
  | c0 :: c1 :: rest =>
    if c0 == '0' && (c1 == 'x' || c1 == 'X') then !rest.isEmpty && rest.all isHexDigitChar
    else if c0 == '0' && (c1 == 'o' || c1 == 'O') then !rest.isEmpty && rest.all isOctDigitChar
    else if c0 == '0' && (c1 == 'b' || c1 == 'B') then !rest.isEmpty && rest.all isBinDigitChar
    else isUnsignedDecimalLiteral (stripSign l)
  | _ => isUnsignedDecimalLiteral (stripSign l)

/-- JavaScript `isNaN(s)` for a string `s`. -/
def jsIsNaN (s : String) : Bool :=
  let t := jsTrimL s.data
  if t.isEmpty then false else !(isStrNumericLiteral t)

/-! ## Data model -/

/-- A stream entry from the upstream addon response (`title`/`name` may be
absent or null, which `none` models). -/
structure Stream where
  url : String
  title : Option String
  name : Option String
deriving Repr, DecidableEq

/-- The parsed upstream JSON body; `streams = none` models a missing or
null `streams` field. -/
structure UpstreamData where
  streams : Option (List Stream)
deriving Repr, DecidableEq

/-- The consumed fields of the addon manifest. -/
structure Manifest where
  name : Option String
  version : Option String
  description : Option String

/-- A JSON value, used for response bodies that Fastify serializes. -/
inductive Json where
  | str (s : String)
  | bool (b : Bool)
  | null
  | arr (xs : List Json)
  | obj (fields : List (String × Json))

/-- A response body: either a raw text payload (`reply.send(string)`) or a
JSON document (`reply.send(object)`). -/
inductive Body where
  | text (s : String)
  | json (j : Json)

/-- An HTTP response as produced by a handler: status code, the
`Content-Type` / `Content-Disposition` headers the code sets explicitly
(`none` = Fastify default), and the body. -/
structure Response where
  status : Nat
  contentType : Option String
  contentDisposition : Option String
  body : Body

/-- The two process-wide globals `ADDON_BASE_URL` and `ADDON_MANIFEST`. -/
structure ServerState where
  addonBaseUrl : Option String
  addonManifest : Option Manifest

/-! ## getBaseUrlFromManifest (src/index.js lines 17-31) -/

/-- `getBaseUrlFromManifest`: trim, strip one trailing slash, then require
and strip the `/manifest.json` suffix (14 characters); otherwise throw. -/
def getBaseUrlFromManifest (manifestUrl : String) : Except String String :=
  let m := jsTrim manifestUrl
  let m2 := if endsWithStr m "/" then dropRightStr m 1 else m
  if endsWithStr m2 "/manifest.json" then
    Except.ok (dropRightStr m2 14)
  else
    Except.error "Invalid manifest URL format: Invalid manifest URL. Must end with /manifest.json"

/-! ## streamsToM3U8 (src/index.js lines 203-243) -/

/-- Leftmost match of the regex `/(\d+p)/`: at the first position where a
maximal digit run is immediately followed by `p`, return that run plus the
`p` (backtracking inside the run cannot succeed because the character after
a shortened run is a digit, never `p`). -/
def matchQualityAux : List Char → Option String
  | [] => none
  | c :: cs =>
    if c.isDigit then
      match (c :: cs).dropWhile Char.isDigit with
      | 'p' :: _ => some (String.mk ((c :: cs).takeWhile Char.isDigit ++ ['p']))
      | _ => matchQualityAux cs
    else matchQualityAux cs

def isDigitOrDot (c : Char) : Bool := c.isDigit || c == '.'

/-- Leftmost match of the regex `/([\d.]+GB)/`, by the same reasoning. -/
def matchSizeAux : List Char → Option String
  | [] => none
  | c :: cs =>
    if isDigitOrDot c then
      match (c :: cs).dropWhile isDigitOrDot with
      | 'G' :: 'B' :: _ => some (String.mk ((c :: cs).takeWhile isDigitOrDot ++ ['G', 'B']))
      | _ => matchSizeAux cs
    else matchSizeAux cs

/-- The bandwidth chain from `streamsToM3U8`: substring tests on the
derived quality token, in source order, defaulting to 5000000. -/
def bandwidthFor (quality : String) : Nat :=
  if strIncludes quality "2160p" || strIncludes quality "4K" then 20000000
  else if strIncludes quality "1080p" then 8000000
  else if strIncludes quality "720p" then 5000000
  else if strIncludes quality "480p" then 2500000
  else 5000000

/-- One iteration of the `streams.forEach` body: the `#EXTINF` display
line, the `#EXT-X-STREAM-INF` bandwidth line, the raw URL and a blank
line. -/
def streamEntry (idx : Nat) (stream : Stream) : String :=
  let streamTitle := jsOr stream.title (jsOr stream.name ("Stream " ++ toString (idx + 1)))
  let streamName := jsOr stream.name "Unknown Source"
  let quality := (matchQualityAux streamTitle.data).getD "Unknown"
  let size := (matchSizeAux streamTitle.data).getD ""
  let bandwidth := bandwidthFor quality
  let displayName := streamName ++ " - " ++ quality ++ (if size == "" then "" else " - " ++ size)
  "#EXTINF:-1 tvg-name=\"" ++ displayName ++ "\" group-title=\"" ++ streamName ++ "\"," ++
    displayName ++ "\n" ++
    "#EXT-X-STREAM-INF:BANDWIDTH=" ++ toString bandwidth ++ "\n" ++
    stream.url ++ "\n\n"

/-- `streamsToM3U8` (the `title` parameter is accepted and ignored, as in
the source; the source gives it the default value `'Playlist'`). -/
def streamsToM3U8 (streams : Option (List Stream)) (title : String) : String :=
  let m3u8Content := "#EXTM3U\n" ++ "#EXT-X-VERSION:3\n\n"
  match streams with
  | none => m3u8Content
  | some l =>
    if l.length == 0 then m3u8Content
    else m3u8Content ++ String.join (l.enum.map fun p => streamEntry p.1 p.2)

/-! ## generateVideoPlayerHTML (src/index.js lines 75-200) -/

/-- `generateVideoPlayerHTML` (src/index.js lines 75-200): the HTML player
page with the stream URL substituted into the three `<source>` tags and the
title into `<title>` (the source gives `title` the default value
`\x27Video Player\x27`). -/
def generateVideoPlayerHTML (streamUrl : String) (title : String) : String :=
  "<!DOCTYPE html>\n<html>\n<head>\n  <meta name=\"viewport\" content=\"width=device-width, initial-sca"
    ++ "le=1.0, maximum-scale=1.0, user-scalable=no\">\n  <meta charset=\"UTF-8\">\n  <title>"
    ++ title
    ++ "</title>\n  <style>\n    * \x7b\n      margin: 0;\n      padding: 0;\n      box-sizing: border-box;\n"
    ++ "    \x7d\n    body \x7b\n      background: #000;\n      overflow: hidden;\n      font-family: -apple"
    ++ "-system, BlinkMacSystemFont, \x27Segoe UI\x27, Roboto, sans-serif;\n    \x7d\n    #video-container "
    ++ "\x7b\n      width: 100vw;\n      height: 100vh;\n      display: flex;\n      align-items: center;\n "
    ++ "     justify-content: center;\n      background: #000;\n    \x7d\n    video \x7b\n      width: 100%;"
    ++ "\n      height: 100%;\n      object-fit: contain;\n      background: #000;\n    \x7d\n    #loading "
    ++ "\x7b\n      position: absolute;\n      top: 50%;\n      left: 50%;\n      transform: translate(-50%,"
    ++ " -50%);\n      color: white;\n      font-size: 18px;\n      text-align: center;\n    \x7d\n    .spin"
    ++ "ner \x7b\n      border: 4px solid rgba(255, 255, 255, 0.3);\n      border-top: 4px solid white;\n   "
    ++ "   border-radius: 50%;\n      width: 40px;\n      height: 40px;\n      animation: spin 1s linear inf"
    ++ "inite;\n      margin: 0 auto 15px;\n    \x7d\n    @keyframes spin \x7b\n      0% \x7b transform: rot"
    ++ "ate(0deg); \x7d\n      100% \x7b transform: rotate(360deg); \x7d\n    \x7d\n    #error \x7b\n      d"
    ++ "isplay: none;\n      position: absolute;\n      top: 50%;\n      left: 50%;\n      transform: transl"
    ++ "ate(-50%, -50%);\n      color: #ff4444;\n      font-size: 16px;\n      text-align: center;\n      pa"
    ++ "dding: 20px;\n      max-width: 80%;\n    \x7d\n  </style>\n</head>\n<body>\n  <div id=\"video-contai"
    ++ "ner\">\n    <div id=\"loading\">\n      <div class=\"spinner\"></div>\n      <div>Loading video...</"
    ++ "div>\n    </div>\n    <div id=\"error\">\n      <div style=\"font-size: 48px; margin-bottom: 10px;\""
    ++ ">\u26A0\uFE0F</div>\n      <div id=\"error-message\">Failed to load video</div>\n    </div>\n    <vi"
    ++ "deo id=\"video\" \n           controls \n           autoplay \n           playsinline \n           p"
    ++ "reload=\"auto\"\n           controlsList=\"nodownload\">\n      <source src=\""
    ++ streamUrl
    ++ "\" type=\"video/mp4\">\n      <source src=\""
    ++ streamUrl
    ++ "\" type=\"video/webm\">\n      <source src=\""
    ++ streamUrl
    ++ "\" type=\"application/x-mpegURL\">\n      Your browser does not support the video tag.\n    </video>"
    ++ "\n  </div>\n\n  <script>\n    const video = document.getElementById(\x27video\x27);\n    const loadi"
    ++ "ng = document.getElementById(\x27loading\x27);\n    const error = document.getElementById(\x27error"
    ++ "\x27);\n    const errorMessage = document.getElementById(\x27error-message\x27);\n\n    // Hide load"
    ++ "ing when video can play\n    video.addEventListener(\x27loadeddata\x27, () => \x7b\n      loading.st"
    ++ "yle.display = \x27none\x27;\n    \x7d);\n\n    video.addEventListener(\x27canplay\x27, () => \x7b\n "
    ++ "     loading.style.display = \x27none\x27;\n    \x7d);\n\n    // Show error if video fails to load\n"
    ++ "    video.addEventListener(\x27error\x27, (e) => \x7b\n      loading.style.display = \x27none\x27;\n"
    ++ "      error.style.display = \x27block\x27;\n      \n      const errorCode = video.error ? video.erro"
    ++ "r.code : \x27unknown\x27;\n      const errorText = video.error ? video.error.message : \x27Unknown e"
    ++ "rror\x27;\n      \n      errorMessage.innerHTML = `Failed to load video<br><small style=\"font-size:"
    ++ " 12px; opacity: 0.7;\">Error: $\x7berrorText\x7d</small>`;\n    \x7d);\n\n    // Prevent context men"
    ++ "u on long press\n    video.addEventListener(\x27contextmenu\x27, (e) => \x7b\n      e.preventDefault"
    ++ "();\n      return false;\n    \x7d);\n  </script>\n</body>\n</html>"

/-! ## Route handlers (src/index.js lines 259-365)

Each Fastify handler is a pure function of the decoded path parameters, the
`format` query value (`none` = absent) and the outcome of the single
upstream fetch.  `Except.error msg` models `fetchStremioStreams` throwing
`msg` (network failure or a non-2xx upstream status), which the handler
`catch` turns into a 500 response. -/

/-- The regex test `imdb.match(/^tt\d+$/)`: literal `tt` followed by at
least one ASCII digit, anchored at both ends. -/
def ttValid (imdb : String) : Bool :=
  match imdb.data with
  | 't' :: 't' :: rest => !rest.isEmpty && rest.all Char.isDigit
  | _ => false

def invalidImdbResponse : Response :=
  ⟨400, none, none, .json (.obj [("error", .str "Invalid IMDb ID format. Must be in format: ttXXXXXXX")])⟩

def invalidSeasonEpisodeResponse : Response :=
  ⟨400, none, none, .json (.obj [("error", .str "Season and episode must be valid numbers")])⟩

def movieNoStreamsResponse : Response :=
  ⟨404, none, none, .json (.obj [("error", .str "No streams found for this movie")])⟩

def tvNoStreamsResponse : Response :=
  ⟨404, none, none, .json (.obj [("error", .str "No streams found for this episode")])⟩

/-- The movie route catch block (500 with the propagated message). -/
def movieFetchErrorResponse (msg : String) : Response :=
  ⟨500, none, none, .json (.obj [("error", .str "Failed to fetch movie streams"), ("message", .str msg)])⟩

/-- The tv route catch block (500 with the propagated message). -/
def tvFetchErrorResponse (msg : String) : Response :=
  ⟨500, none, none, .json (.obj [("error", .str "Failed to fetch TV show streams"), ("message", .str msg)])⟩

/-- `GET /movie/:imdb` (src/index.js lines 259-304). -/
def movieHandler (imdb : String) (format : Option String)
    (fetchResult : Except String UpstreamData) : Response :=
  if !(ttValid imdb) then invalidImdbResponse
  else
    match fetchResult with
    | .error msg => movieFetchErrorResponse msg
    | .ok data =>
      match data.streams with
      | none => movieNoStreamsResponse
      | some [] => movieNoStreamsResponse
      | some (firstStream :: rest) =>
        if format = some "m3u8" then
          ⟨200, some "application/vnd.apple.mpegurl",
            some ("attachment; filename=\"" ++ imdb ++ ".m3u8\""),
            .text (streamsToM3U8 (some (firstStream :: rest)) ("Movie " ++ imdb))⟩
        else
          ⟨200, some "text/html", none,
            .text (generateVideoPlayerHTML firstStream.url ("Movie " ++ imdb))⟩

/-- `GET /tv/:imdb/:season/:episode` (src/index.js lines 307-365). -/
def tvHandler (imdb season episode : String) (format : Option String)
    (fetchResult : Except String UpstreamData) : Response :=
  if !(ttValid imdb) then invalidImdbResponse
  else if jsIsNaN season || jsIsNaN episode then invalidSeasonEpisodeResponse
  else
    match fetchResult with
    | .error msg => tvFetchErrorResponse msg
    | .ok data =>
      match data.streams with
      | none => tvNoStreamsResponse
      | some [] => tvNoStreamsResponse
      | some (firstStream :: rest) =>
        if format = some "m3u8" then
          ⟨200, some "application/vnd.apple.mpegurl",
            some ("attachment; filename=\"" ++ imdb ++ "_S" ++ season ++ "E" ++ episode ++ ".m3u8\""),
            .text (streamsToM3U8 (some (firstStream :: rest))
              ("TV Show " ++ imdb ++ " S" ++ season ++ "E" ++ episode))⟩
        else
          ⟨200, some "text/html", none,
            .text (generateVideoPlayerHTML firstStream.url
              ("TV Show " ++ imdb ++ " S" ++ season ++ "E" ++ episode))⟩

/-! ## Server-level model: preHandler gate and fixed routes
(src/index.js lines 246-256 and 368-438) -/

/-- The body sent by the `preHandler` hook when the addon is not
configured. -/
def unconfiguredResponse : Response :=
  ⟨503, none, none, .json (.obj [
    ("error", .str "Addon not configured"),
    ("message", .str "Please set MANIFEST_URL environment variable"),
    ("example", .str "MANIFEST_URL=https://nuviostreams.hayd.uk/manifest.json")])⟩

/-- The hook compares `request.url` (the raw URL: path plus any query
string) against this literal list. -/
def skipRoutes : List String := ["/", "/health", "/info"]

/-- An incoming request: the path that route matching sees and the parsed
query parameters.  `Request.url` is Fastify `request.url`, i.e. path plus
the rendered query string. -/
structure Request where
  path : String
  query : List (String × String)

/-- Render the query string back the way it appears in `request.url`. -/
def renderQuery (q : List (String × String)) : String :=
  match q with
  | [] => ""
  | _ => "?" ++ String.intercalate "&" (q.map fun p => p.1 ++ "=" ++ p.2)

def Request.url (r : Request) : String := r.path ++ renderQuery r.query

/-- The `format` value the handlers destructure from `request.query`. -/
def queryFormat (r : Request) : Option String :=
  (r.query.find? fun p => p.1 == "format").map fun p => p.2

/-- `GET /` (src/index.js lines 393-438): the static API self-description. -/
def rootHandler (st : ServerState) : Response :=
  ⟨200, none, none, .json (.obj [
    ("name", .str "Stremio to M3U8 API"),
    ("version", .str "3.0.0"),
    ("description", .str "Convert Stremio addon streams to M3U8 playlists"),
    ("configured", .bool st.addonBaseUrl.isSome),
    ("endpoints", .obj [
      ("movie", .obj [
        ("method", .str "GET"),
        ("path", .str "/movie/\x7bimdb\x7d"),
        ("example", .str "/movie/tt32063098"),
        ("queryParams", .obj [
          ("format", .str "Optional: \"m3u8\" for playlist file (default: HTML video player)")]),
        ("returns", .str "HTML video player page (or M3U8 with ?format=m3u8)")]),
      ("tv", .obj [
        ("method", .str "GET"),
        ("path", .str "/tv/\x7bimdb\x7d/\x7bseason\x7d/\x7bepisode\x7d"),
        ("example", .str "/tv/tt32063098/1/1"),
        ("queryParams", .obj [
          ("format", .str "Optional: \"m3u8\" for playlist file (default: HTML video player)")]),
        ("returns", .str "HTML video player page (or M3U8 with ?format=m3u8)")]),
      ("info", .obj [
        ("method", .str "GET"),
        ("path", .str "/info"),
        ("description", .str "Get current addon configuration")]),
      ("health", .obj [
        ("method", .str "GET"),
        ("path", .str "/health"),
        ("description", .str "Health check endpoint")])]),
    ("setup", .obj [
      ("required", .str "Set MANIFEST_URL environment variable"),
      ("examples", .arr [
        .str "MANIFEST_URL=https://nuviostreams.hayd.uk/manifest.json",
        .str "MANIFEST_URL=https://nuviostreams.hayd.uk/token123/manifest.json",
        .str "MANIFEST_URL=https://nuviostreams.hayd.uk/path/to/manifest.json"])])])⟩

/-- `GET /health` (src/index.js lines 384-390); the timestamp is an input
since `new Date()` is impure. -/
def healthHandler (st : ServerState) (timestamp : String) : Response :=
  ⟨200, none, none, .json (.obj [
    ("status", .str "ok"),
    ("timestamp", .str timestamp),
    ("addonConfigured", .bool st.addonBaseUrl.isSome)])⟩

/-- `GET /info` (src/index.js lines 368-381); `envManifestUrl` is
`process.env.MANIFEST_URL`. -/
def infoHandler (st : ServerState) (envManifestUrl : Option String) : Response :=
  ⟨200, none, none, .json (.obj [
    ("configured", .bool st.addonBaseUrl.isSome),
    ("addon", match st.addonManifest with
      | some m => .obj [
          ("name", .str (jsOr m.name "Unknown")),
          ("version", .str (jsOr m.version "Unknown")),
          ("description", .str (jsOr m.description "No description")),
          ("baseUrl", match st.addonBaseUrl with | some b => .str b | none => .null)]
      | none => .null),
    ("environment", .obj [("manifestUrl", .str (jsOr envManifestUrl "Not set"))])])⟩

/-- Which registered route a path matches (Fastify route patterns; a path
parameter never matches an empty segment). -/
inductive RouteMatch where
  | root
  | health
  | info
  | movie (imdb : String)
  | tv (imdb : String) (season : String) (episode : String)
deriving Repr, DecidableEq

/-- Split a character list at every occurrence of `sep`. -/
def splitOnCharAux (sep : Char) : List Char → List Char → List (List Char)
  | [], acc => [acc.reverse]
  | c :: cs, acc =>
    if c == sep then acc.reverse :: splitOnCharAux sep cs []
    else splitOnCharAux sep cs (c :: acc)

def splitSegments (path : String) : List String :=
  (splitOnCharAux '/' path.data []).map String.mk

/-- Route matching on the path portion of the URL.  `none` means no route
matches and Fastify falls through to its default 404 handling, which is
outside this model. -/
def router (path : String) : Option RouteMatch :=
  match splitSegments path with
  | ["", ""] => some .root
  | ["", "health"] => some .health
  | ["", "info"] => some .info
  | ["", "movie", imdb] => if imdb = "" then none else some (.movie imdb)
  | ["", "tv", i, s, e] =>
    if i = "" || s = "" || e = "" then none else some (.tv i s e)
  | _ => none

/-- The full request pipeline for matched routes: the global `preHandler`
hook first (503 short-circuit when `request.url` is not exactly one of the
skip routes and no base URL is configured), then the matched handler.
Unmatched paths return `none` (Fastify default 404 handling, not part of
this model). -/
def serve (st : ServerState) (req : Request) (fetchResult : Except String UpstreamData)
    (timestamp : String) (envManifestUrl : Option String) : Option Response :=
  if !(skipRoutes.contains req.url) && st.addonBaseUrl.isNone then
    some unconfiguredResponse
  else
    match router req.path with
    | some .root => some (rootHandler st)
    | some .health => some (healthHandler st timestamp)
    | some .info => some (infoHandler st envManifestUrl)
    | some (.movie imdb) => some (movieHandler imdb (queryFormat req) fetchResult)
    | some (.tv i s e) => some (tvHandler i s e (queryFormat req) fetchResult)
    | none => none

/-! ## Spec-side definition for the playlist tier table -/

/-- Modelled from the spec: the fixed quality-to-bandwidth tier table of
section 4.2 read as a table keyed by the derived quality token
(2160p/4K to 20000000, 1080p to 8000000, 720p to 5000000, 480p to 2500000,
unrecognized tokens to the 5000000 default). -/
def specTierBandwidth (q : String) : Nat :=
  if q = "2160p" || q = "4K" then 20000000
  else if q = "1080p" then 8000000
  else if q = "720p" then 5000000
  else if q = "480p" then 2500000
  else 5000000

/-! ## Helper lemmas -/

theorem data_append (a b : String) : (a ++ b).data = a.data ++ b.data := rfl

theorem string_ext {a b : String} (h : a.data = b.data) : a = b := by
  cases a; cases b; exact congrArg String.mk h

theorem str_append_empty (s : String) : s ++ "" = s := by
  apply string_ext; simp [data_append]

theorem str_append_assoc (a b c : String) : (a ++ b) ++ c = a ++ (b ++ c) := by
  apply string_ext; simp [data_append]

theorem startsWithList_self_append (p r : List Char) :
    startsWithList (p ++ r) p = true := by
  induction p with
  | nil => simp [startsWithList]
  | cons c cs ih => simp [startsWithList, ih]

theorem startsWithList_exists {s p : List Char} (h : startsWithList s p = true) :
    ∃ r, s = p ++ r := by
  induction p generalizing s with
  | nil => exact ⟨s, rfl⟩
  | cons c cs ih =>
    cases s with
    | nil => simp [startsWithList] at h
    | cons a as =>
      rw [startsWithList, Bool.and_eq_true, beq_iff_eq] at h
      obtain ⟨r, hr⟩ := ih h.2
      exact ⟨r, by simp [h.1, hr]⟩

theorem endsWithStr_append (r t : String) : endsWithStr (r ++ t) t = true := by
  show startsWithList (r ++ t).data.reverse t.data.reverse = true
  rw [data_append, List.reverse_append]
  exact startsWithList_self_append _ _

theorem endsWithStr_exists {s t : String} (h : endsWithStr s t = true) :
    ∃ q : String, s = q ++ t := by
  obtain ⟨r, hr⟩ := startsWithList_exists h
  refine ⟨String.mk r.reverse, string_ext ?_⟩
  have h2 := congrArg List.reverse hr
  simp only [List.reverse_reverse, List.reverse_append] at h2
  simpa [data_append] using h2

theorem dropRightStr_append (q t : String) :
    dropRightStr (q ++ t) t.data.length = q := by
  apply string_ext
  show ((q ++ t).data.reverse.drop t.data.length).reverse = q.data
  rw [data_append, List.reverse_append,
    show t.data.length = t.data.reverse.length from (List.length_reverse _).symm,
    List.drop_left, List.reverse_reverse]

/-- A string ending in `t` cannot also end in `u` when the last characters
of `t` and `u` differ. -/
theorem ends_append_ne (r : String) {t u : String} {c d : Char} {tr ur : List Char}
    (htr : t.data.reverse = c :: tr) (hur : u.data.reverse = d :: ur) (hcd : c ≠ d) :
    endsWithStr (r ++ t) u = false := by
  cases hb : endsWithStr (r ++ t) u with
  | false => rfl
  | true =>
    exfalso
    obtain ⟨q, hq⟩ := endsWithStr_exists hb
    have hdata := congrArg String.data hq
    rw [data_append, data_append] at hdata
    have h2 := congrArg List.reverse hdata
    rw [List.reverse_append, List.reverse_append, htr, hur, List.cons_append,
      List.cons_append] at h2
    injection h2 with hh
    exact hcd hh

theorem not_ws_of_digit {c : Char} (h : c.isDigit = true) :
    isJsWhitespaceChar c = false := by
  cases hw : isJsWhitespaceChar c with
  | false => rfl
  | true =>
    exfalso
    simp only [isJsWhitespaceChar, Bool.or_eq_true, beq_iff_eq] at hw
    rcases hw with ((((((h1 | h1) | h1) | h1) | h1) | h1) | h1) | h1 <;>
      (subst h1; exact absurd h (by decide))

theorem takeWhile_of_all {p : Char → Bool} :
    ∀ {l : List Char}, l.all p = true → l.takeWhile p = l := by
  intro l
  induction l with
  | nil => intro _; rfl
  | cons c cs ih =>
    intro h
    rw [List.all_cons, Bool.and_eq_true] at h
    simp [List.takeWhile_cons, h.1, ih h.2]

theorem dropWhile_of_all {p : Char → Bool} :
    ∀ {l : List Char}, l.all p = true → l.dropWhile p = [] := by
  intro l
  induction l with
  | nil => intro _; rfl
  | cons c cs ih =>
    intro h
    rw [List.all_cons, Bool.and_eq_true] at h
    simp [List.dropWhile_cons, h.1, ih h.2]

/-- Any non-empty all-digit string passes the `isNaN` check (its numeric
coercion is a plain decimal number). -/
theorem jsIsNaN_digits {s : String} (hne : s.data ≠ [])
    (hd : s.data.all Char.isDigit = true) : jsIsNaN s = false := by
  obtain ⟨c, cs, hl⟩ : ∃ c cs, s.data = c :: cs := by
    cases hsd : s.data with
    | nil => exact absurd hsd hne
    | cons c cs => exact ⟨c, cs, rfl⟩
  have hall : (c :: cs).all Char.isDigit = true := hl ▸ hd
  have hc : c.isDigit = true := by
    rw [List.all_cons, Bool.and_eq_true] at hall; exact hall.1
  have htrim : jsTrimL s.data = s.data := by
    rw [hl]
    unfold jsTrimL
    rw [List.dropWhile_cons_of_neg (by simp [not_ws_of_digit hc])]
    cases hrev : (c :: cs).reverse with
    | nil => exact absurd hrev (by simp)
    | cons d ds =>
      have hdmem : d ∈ (c :: cs).reverse := by rw [hrev]; exact List.mem_cons_self _ _
      rw [List.mem_reverse] at hdmem
      have hddig : d.isDigit = true := by
        rw [List.all_eq_true] at hall; exact hall d hdmem
      rw [List.dropWhile_cons_of_neg (by simp [not_ws_of_digit hddig])]
      rw [← hrev, List.reverse_reverse]
  have hinf : ∀ l : List Char, l.all Char.isDigit = true → l ≠ infinityChars := by
    intro l hdig hli
    rw [hli] at hdig
    exact absurd hdig (by decide)
  have hdec : ∀ l : List Char, l ≠ [] → l.all Char.isDigit = true →
      isUnsignedDecimalLiteral l = true := by
    intro l hlne hdig
    simp only [isUnsignedDecimalLiteral]
    rw [if_neg (hinf l hdig), takeWhile_of_all hdig, dropWhile_of_all hdig]
    cases l with
    | nil => exact absurd rfl hlne
    | cons x xs => simp [checkExponentPart]
  have hsign : stripSign (c :: cs) = c :: cs := by
    have h1 : (c == '+') = false := by
      rw [beq_eq_false_iff_ne]; intro hh; subst hh; exact absurd hc (by decide)
    have h2 : (c == '-') = false := by
      rw [beq_eq_false_iff_ne]; intro hh; subst hh; exact absurd hc (by decide)
    simp [stripSign, h1, h2]
  have hnum : isStrNumericLiteral (c :: cs) = true := by
    cases cs with
    | nil =>
      simp only [isStrNumericLiteral]
      rw [show stripSign [c] = [c] from hsign]
      exact hdec [c] (by simp) hall
    | cons c1 cs2 =>
      have hc1 : c1.isDigit = true := by
        rw [List.all_cons, List.all_cons, Bool.and_eq_true, Bool.and_eq_true] at hall
        exact hall.2.1
      have hne1 : (c1 == 'x') = false := by
        rw [beq_eq_false_iff_ne]; intro hh; subst hh; exact absurd hc1 (by decide)
      have hne2 : (c1 == 'X') = false := by
        rw [beq_eq_false_iff_ne]; intro hh; subst hh; exact absurd hc1 (by decide)
      have hne3 : (c1 == 'o') = false := by
        rw [beq_eq_false_iff_ne]; intro hh; subst hh; exact absurd hc1 (by decide)
      have hne4 : (c1 == 'O') = false := by
        rw [beq_eq_false_iff_ne]; intro hh; subst hh; exact absurd hc1 (by decide)
      have hne5 : (c1 == 'b') = false := by
        rw [beq_eq_false_iff_ne]; intro hh; subst hh; exact absurd hc1 (by decide)
      have hne6 : (c1 == 'B') = false := by
        rw [beq_eq_false_iff_ne]; intro hh; subst hh; exact absurd hc1 (by decide)
      simp only [isStrNumericLiteral, hne1, hne2, hne3, hne4, hne5, hne6,
        Bool.or_self, Bool.or_false, Bool.and_false, Bool.false_and, if_false,
        ite_false]
      rw [show stripSign (c :: c1 :: cs2) = c :: c1 :: cs2 from hsign]
      exact hdec _ (by simp) hall
  rw [hl] at htrim
  simp only [jsIsNaN, hl, htrim, hnum]
  simp

/-! ## Claim theorems -/

/-- Claim C10 (confirmed): for an empty, null or undefined streams list the
playlist serializer returns exactly the two-line header (`#EXTM3U` and
`#EXT-X-VERSION:3` followed by a blank line) with no entry blocks; being a
total Lean function it cannot fail. -/
theorem empty_playlist_header_only (t : String) :
    streamsToM3U8 none t = "#EXTM3U\n#EXT-X-VERSION:3\n\n" ∧
    streamsToM3U8 (some []) t = "#EXTM3U\n#EXT-X-VERSION:3\n\n" := by
  constructor <;> rfl

/-- Claim C6 (confirmed): an `imdb` parameter failing `^tt\d+$` makes both
routes answer the fixed 400 response for every possible upstream outcome,
i.e. before and independently of any upstream call. -/
theorem invalid_imdb_rejected_before_fetch (imdb : String)
    (h : ttValid imdb = false) (format : Option String)
    (fetchResult : Except String UpstreamData) (season episode : String) :
    movieHandler imdb format fetchResult = invalidImdbResponse ∧
    tvHandler imdb season episode format fetchResult = invalidImdbResponse := by
  constructor <;> simp [movieHandler, tvHandler, h]

/-- Witness for C6 at `imdb = "abc123"` (and the other spec examples
`"tt"`, `"123"` are likewise invalid). -/
theorem invalid_imdb_rejected_before_fetch_witness :
    (ttValid "abc123" = false ∧ ttValid "tt" = false ∧ ttValid "123" = false) ∧
    (movieHandler "abc123" none (.ok ⟨some []⟩) = invalidImdbResponse ∧
      tvHandler "abc123" "1" "2" none (.ok ⟨some []⟩) = invalidImdbResponse) :=
  ⟨by decide,
    invalid_imdb_rejected_before_fetch "abc123" (by decide) none (.ok ⟨some []⟩) "1" "2"⟩

/-- Claim C8 (confirmed): an upstream response with a missing or empty
`streams` array makes both routes answer 404 with the "no streams found"
message. -/
theorem empty_streams_404 (imdb : String) (format : Option String)
    (season episode : String) (h : ttValid imdb = true)
    (hse : (jsIsNaN season || jsIsNaN episode) = false) :
    movieHandler imdb format (.ok ⟨none⟩) = movieNoStreamsResponse ∧
    movieHandler imdb format (.ok ⟨some []⟩) = movieNoStreamsResponse ∧
    tvHandler imdb season episode format (.ok ⟨none⟩) = tvNoStreamsResponse ∧
    tvHandler imdb season episode format (.ok ⟨some []⟩) = tvNoStreamsResponse := by
  refine ⟨?_, ?_, ?_, ?_⟩ <;> simp [movieHandler, tvHandler, h, hse]

/-- Witness for C8 at concrete route parameters. -/
theorem empty_streams_404_witness :
    ttValid "tt32063098" = true ∧
    (movieHandler "tt32063098" none (.ok ⟨none⟩) = movieNoStreamsResponse ∧
      movieHandler "tt32063098" none (.ok ⟨some []⟩) = movieNoStreamsResponse ∧
      tvHandler "tt32063098" "1" "1" none (.ok ⟨none⟩) = tvNoStreamsResponse ∧
      tvHandler "tt32063098" "1" "1" none (.ok ⟨some []⟩) = tvNoStreamsResponse) :=
  ⟨by decide, empty_streams_404 "tt32063098" none "1" "1" (by decide) (by decide)⟩

/-- Claim C9 (confirmed): with a non-empty upstream streams list and any
`format` value other than the exact string `m3u8`, both routes answer the
HTML player page embedding exactly the `url` of the first stream; the
response is a pure function of that URL (no probe of any stream occurs in
the handler, so no reachability, status or content-type check is
performed). -/
theorem non_m3u8_format_returns_first_stream_player
    (imdb season episode v : String) (firstStream : Stream) (rest : List Stream)
    (h : ttValid imdb = true) (hse : (jsIsNaN season || jsIsNaN episode) = false)
    (hv : v ≠ "m3u8") :
    movieHandler imdb (some v) (.ok ⟨some (firstStream :: rest)⟩) =
      ⟨200, some "text/html", none,
        .text (generateVideoPlayerHTML firstStream.url ("Movie " ++ imdb))⟩ ∧
    tvHandler imdb season episode (some v) (.ok ⟨some (firstStream :: rest)⟩) =
      ⟨200, some "text/html", none,
        .text (generateVideoPlayerHTML firstStream.url
          ("TV Show " ++ imdb ++ " S" ++ season ++ "E" ++ episode))⟩ := by
  constructor <;> simp [movieHandler, tvHandler, h, hse, hv]

/-- Witness for C9 at `format = "mp4"` and a two-element stream list. -/
theorem non_m3u8_format_returns_first_stream_player_witness :
    (ttValid "tt1" = true ∧ "mp4" ≠ "m3u8") ∧
    movieHandler "tt1" (some "mp4")
        (.ok ⟨some [⟨"http://a.example/1.mp4", none, none⟩,
          ⟨"http://a.example/2.mp4", none, none⟩]⟩) =
      ⟨200, some "text/html", none,
        .text (generateVideoPlayerHTML "http://a.example/1.mp4" ("Movie " ++ "tt1"))⟩ :=
  ⟨⟨by decide, by decide⟩,
    (non_m3u8_format_returns_first_stream_player "tt1" "1" "1" "mp4"
      ⟨"http://a.example/1.mp4", none, none⟩ [⟨"http://a.example/2.mp4", none, none⟩]
      (by decide) (by decide) (by decide)).1⟩

/-- Counterexample for claim C1: the movie route performs no reachability
probe at all, so with a non-empty upstream list and no format filter it
answers 200 with the HTML player even when every stream URL is unreachable
(the response does not depend on reachability), not 404 as claimed. -/
theorem movie_route_unreachable_streams_not_404 :
    (movieHandler "tt1" none
      (.ok ⟨some [⟨"http://unreachable.invalid/video.mp4", none, none⟩]⟩)).status = 200 ∧
    (movieHandler "tt1" none
      (.ok ⟨some [⟨"http://unreachable.invalid/video.mp4", none, none⟩]⟩)).status ≠ 404 := by
  constructor <;> decide

/-- Claim C1 (corrected): the routes perform no probes; with no format
filter they answer 200 with an HTML player for the first stream whenever
the upstream list is non-empty, regardless of reachability, and 404 exactly
when the list is empty or missing; no probe failure can surface because no
probe is ever made. -/
theorem routes_no_probe_first_stream_or_404 (imdb season episode : String)
    (firstStream : Stream) (rest : List Stream)
    (h : ttValid imdb = true) (hse : (jsIsNaN season || jsIsNaN episode) = false) :
    movieHandler imdb none (.ok ⟨some (firstStream :: rest)⟩) =
      ⟨200, some "text/html", none,
        .text (generateVideoPlayerHTML firstStream.url ("Movie " ++ imdb))⟩ ∧
    movieHandler imdb none (.ok ⟨none⟩) = movieNoStreamsResponse ∧
    movieHandler imdb none (.ok ⟨some []⟩) = movieNoStreamsResponse ∧
    tvHandler imdb season episode none (.ok ⟨some (firstStream :: rest)⟩) =
      ⟨200, some "text/html", none,
        .text (generateVideoPlayerHTML firstStream.url
          ("TV Show " ++ imdb ++ " S" ++ season ++ "E" ++ episode))⟩ ∧
    tvHandler imdb season episode none (.ok ⟨none⟩) = tvNoStreamsResponse := by
  refine ⟨?_, ?_, ?_, ?_, ?_⟩ <;> simp [movieHandler, tvHandler, h, hse]

/-- Witness for the corrected C1 at concrete inputs. -/
theorem routes_no_probe_first_stream_or_404_witness :
    ttValid "tt1" = true ∧
    movieHandler "tt1" none (.ok ⟨some [⟨"http://dead.example/v.mp4", none, none⟩]⟩) =
      ⟨200, some "text/html", none,
        .text (generateVideoPlayerHTML "http://dead.example/v.mp4" ("Movie " ++ "tt1"))⟩ :=
  ⟨by decide,
    (routes_no_probe_first_stream_or_404 "tt1" "1" "1"
      ⟨"http://dead.example/v.mp4", none, none⟩ [] (by decide) (by decide)).1⟩

/-- Counterexample for claim C3: the `format` comparison is case-sensitive,
so `format=m3u8` produces the playlist while `format=M3U8` produces the
HTML player; the routes do not treat format values identically up to letter
case. -/
theorem format_case_sensitivity_cex :
    (movieHandler "tt1" (some "m3u8")
      (.ok ⟨some [⟨"http://example.com/v.mp4", none, none⟩]⟩)).contentType =
        some "application/vnd.apple.mpegurl" ∧
    (movieHandler "tt1" (some "M3U8")
      (.ok ⟨some [⟨"http://example.com/v.mp4", none, none⟩]⟩)).contentType =
        some "text/html" ∧
    (movieHandler "tt1" (some "m3u8")
        (.ok ⟨some [⟨"http://example.com/v.mp4", none, none⟩]⟩)).contentType ≠
      (movieHandler "tt1" (some "M3U8")
        (.ok ⟨some [⟨"http://example.com/v.mp4", none, none⟩]⟩)).contentType := by
  refine ⟨?_, ?_, ?_⟩ <;> decide

/-- Claim C3 (corrected): the only format handling is a case-sensitive
exact comparison with `m3u8`; every other value, regardless of case
(`MKV` and `mkv` included), selects the same HTML player response, while
`m3u8` and `M3U8` are treated differently. -/
theorem format_check_case_sensitive_exact (imdb season episode v w : String)
    (firstStream : Stream) (rest : List Stream)
    (h : ttValid imdb = true) (hse : (jsIsNaN season || jsIsNaN episode) = false)
    (hv : v ≠ "m3u8") (hw : w ≠ "m3u8") :
    movieHandler imdb (some v) (.ok ⟨some (firstStream :: rest)⟩) =
      movieHandler imdb (some w) (.ok ⟨some (firstStream :: rest)⟩) ∧
    tvHandler imdb season episode (some v) (.ok ⟨some (firstStream :: rest)⟩) =
      tvHandler imdb season episode (some w) (.ok ⟨some (firstStream :: rest)⟩) ∧
    (movieHandler imdb (some "m3u8") (.ok ⟨some (firstStream :: rest)⟩)).contentType ≠
      (movieHandler imdb (some "M3U8") (.ok ⟨some (firstStream :: rest)⟩)).contentType := by
  refine ⟨?_, ?_, ?_⟩
  · simp [movieHandler, h, hv, hw]
  · simp [tvHandler, h, hse, hv, hw]
  · simp [movieHandler, h]

/-- Witness for the corrected C3 at `MKV`/`mkv`. -/
theorem format_check_case_sensitive_exact_witness :
    movieHandler "tt1" (some "MKV") (.ok ⟨some [⟨"http://e.example/v.mkv", none, none⟩]⟩) =
      movieHandler "tt1" (some "mkv") (.ok ⟨some [⟨"http://e.example/v.mkv", none, none⟩]⟩) :=
  (format_check_case_sensitive_exact "tt1" "1" "1" "MKV" "mkv"
    ⟨"http://e.example/v.mkv", none, none⟩ [] (by decide) (by decide)
    (by decide) (by decide)).1

/-- Counterexample for claim C7: `"Infinity"` is not a numeric string (not
even a digit string), yet the episode route accepts it — the handler
reaches the upstream phase and answers 404 on an empty list instead of the
claimed 400. -/
theorem season_episode_infinity_accepted_cex :
    ("Infinity".data.all Char.isDigit) = false ∧
    (tvHandler "tt123" "Infinity" "1" none (.ok ⟨some []⟩)).status = 404 ∧
    (tvHandler "tt123" "Infinity" "1" none (.ok ⟨some []⟩)).status ≠ 400 := by
  refine ⟨?_, ?_, ?_⟩ <;> decide

/-- Claim C7 (corrected): the episode route answers the fixed 400 exactly
when JavaScript number coercion of `season` or `episode` is NaN; every
non-empty digit string is accepted, but the accepted set is strictly larger
than the numeric strings (e.g. `Infinity`, `1e3` or blank strings also
pass the `isNaN` check). -/
theorem season_episode_isnan_check (imdb season episode : String)
    (format : Option String) (fetchResult : Except String UpstreamData)
    (h : ttValid imdb = true) :
    ((jsIsNaN season || jsIsNaN episode) = true →
      tvHandler imdb season episode format fetchResult = invalidSeasonEpisodeResponse) ∧
    ((jsIsNaN season || jsIsNaN episode) = false →
      (tvHandler imdb season episode format fetchResult).status ≠ 400) ∧
    (season.data ≠ [] → season.data.all Char.isDigit = true → jsIsNaN season = false) := by
  refine ⟨?_, ?_, ?_⟩
  · intro hse; simp [tvHandler, h, hse]
  · intro hse
    cases fetchResult with
    | error msg => simp [tvHandler, h, hse, tvFetchErrorResponse]
    | ok data =>
      obtain ⟨streams⟩ := data
      cases streams with
      | none => simp [tvHandler, h, hse, tvNoStreamsResponse]
      | some l =>
        cases l with
        | nil => simp [tvHandler, h, hse, tvNoStreamsResponse]
        | cons a as =>
          by_cases hf : format = some "m3u8" <;> simp [tvHandler, h, hse, hf]
  · exact fun hne hd => jsIsNaN_digits hne hd

/-- Witness for the corrected C7: `"one"` is rejected with the fixed 400,
a digit string such as `"3"` passes. -/
theorem season_episode_isnan_check_witness :
    tvHandler "tt123" "one" "1" none (.ok ⟨some []⟩) = invalidSeasonEpisodeResponse ∧
    jsIsNaN "3" = false :=
  ⟨(season_episode_isnan_check "tt123" "one" "1" none (.ok ⟨some []⟩) (by decide)).1
      (by decide),
    (season_episode_isnan_check "tt123" "3" "1" none (.ok ⟨some []⟩) (by decide)).2.2
      (by decide) (by decide)⟩

set_option maxRecDepth 4096 in
/-- Counterexample for claim C2: the derived quality token for the title
`"Source C 12160p"` is `"12160p"`, which is none of the table keys
2160p/4K/1080p/720p/480p and so should map to the 5000000 default, but the
code tests the keys by substring containment and emits 20000000. -/
theorem playlist_tier_table_cex :
    matchQualityAux ("Source C 12160p".data) = some "12160p" ∧
    ¬("12160p" = "2160p" ∨ "12160p" = "4K" ∨ "12160p" = "1080p" ∨
      "12160p" = "720p" ∨ "12160p" = "480p") ∧
    specTierBandwidth "12160p" = 5000000 ∧
    bandwidthFor "12160p" = 20000000 ∧
    strIncludes
      (streamsToM3U8 (some [⟨"http://example.com/c.mkv", some "Source C 12160p", none⟩]) "T")
      "BANDWIDTH=20000000" = true ∧
    strIncludes
      (streamsToM3U8 (some [⟨"http://example.com/c.mkv", some "Source C 12160p", none⟩]) "T")
      "BANDWIDTH=5000000" = false := by
  refine ⟨?_, ?_, ?_, ?_, ?_, ?_⟩ <;> decide

set_option maxRecDepth 4096 in
/-- Claim C2 (corrected): the serializer derives the quality token with
`/(\d+p)/` and maps it through the tier tests by substring containment in
source order (2160p or 4K, then 1080p, 720p, 480p, else the 5000000
default); containment agrees with the claimed table on every listed key,
and on the two example streams the document is exactly the header followed
by the two entry blocks with bandwidths 8000000 and 5000000, each bandwidth
line immediately followed by the literal stream URL. -/
theorem playlist_bandwidth_containment_table :
    streamsToM3U8 (some [⟨"https://example.com/a.mp4", some "Source A 1080p 2.1GB", none⟩,
        ⟨"https://example.com/b.mp4", some "Source B 720p", none⟩]) "Movie tt1" =
      "#EXTM3U\n#EXT-X-VERSION:3\n\n" ++
      "#EXTINF:-1 tvg-name=\"Unknown Source - 1080p - 2.1GB\" group-title=\"Unknown Source\",Unknown Source - 1080p - 2.1GB\n" ++
      "#EXT-X-STREAM-INF:BANDWIDTH=8000000\n" ++ "https://example.com/a.mp4\n\n" ++
      "#EXTINF:-1 tvg-name=\"Unknown Source - 720p\" group-title=\"Unknown Source\",Unknown Source - 720p\n" ++
      "#EXT-X-STREAM-INF:BANDWIDTH=5000000\n" ++ "https://example.com/b.mp4\n\n" ∧
    (["2160p", "4K", "1080p", "720p", "480p"].all
      fun q => bandwidthFor q == specTierBandwidth q) = true ∧
    bandwidthFor "Unknown" = 5000000 := by
  refine ⟨?_, ?_, ?_⟩ <;> decide

/-- Counterexample for claim C5: a request to the `/health` route carrying
a query string has `request.url = "/health?x=1"`, which is not an exact
member of the skip list, so while unconfigured the hook answers 503 instead
of the claimed success. -/
theorem gate_health_query_string_cex :
    router "/health" = some RouteMatch.health ∧
    Request.url ⟨"/health", [("x", "1")]⟩ = "/health?x=1" ∧
    serve ⟨none, none⟩ ⟨"/health", [("x", "1")]⟩ (.error "") "t" none =
      some unconfiguredResponse ∧
    unconfiguredResponse.status = 503 := by
  refine ⟨?_, ?_, ?_, ?_⟩
  · decide
  · decide
  · rfl
  · rfl

/-- Claim C5 (corrected): while unconfigured, requests whose full URL
(path plus query string) is exactly `/`, `/health` or `/info` bypass the
gate and succeed with 200, and every other request to a registered route
gets the fixed 503 body naming `MANIFEST_URL`; the comparison is against
the exact `request.url`, so e.g. `/health` with a query string is *not*
exempt. -/
theorem gate_exact_url_match (st : ServerState) (req : Request)
    (fetchResult : Except String UpstreamData) (timestamp : String)
    (envManifestUrl : Option String) (hst : st.addonBaseUrl = none) :
    (req.query = [] → (req.path = "/" ∨ req.path = "/health" ∨ req.path = "/info") →
      ∃ resp, serve st req fetchResult timestamp envManifestUrl = some resp ∧
        resp.status = 200) ∧
    (skipRoutes.contains req.url = false → (router req.path).isSome = true →
      serve st req fetchResult timestamp envManifestUrl = some unconfiguredResponse) := by
  constructor
  · intro hq hp
    obtain ⟨path, query⟩ := req
    simp only at hq hp
    subst hq
    rcases hp with hp | hp | hp <;> subst hp
    · exact ⟨rootHandler st, rfl, rfl⟩
    · exact ⟨healthHandler st timestamp, rfl, rfl⟩
    · exact ⟨infoHandler st envManifestUrl, rfl, rfl⟩
  · intro hc _
    simp only [serve, hc, hst]
    simp

/-- Witness for the corrected C5: `/health` without a query succeeds while
unconfigured, `/movie/tt1` gets the fixed 503. -/
theorem gate_exact_url_match_witness :
    (∃ resp, serve ⟨none, none⟩ ⟨"/health", []⟩ (.error "") "t" none = some resp ∧
      resp.status = 200) ∧
    serve ⟨none, none⟩ ⟨"/movie/tt1", []⟩ (.error "") "t" none =
      some unconfiguredResponse :=
  ⟨(gate_exact_url_match ⟨none, none⟩ ⟨"/health", []⟩ (.error "") "t" none rfl).1 rfl
      (Or.inr (Or.inl rfl)),
    (gate_exact_url_match ⟨none, none⟩ ⟨"/movie/tt1", []⟩ (.error "") "t" none rfl).2
      (by decide) (by decide)⟩

/-- Counterexample for claim C4: `"https://host/path/manifest.json "`
(trailing blank) does not end in `/manifest.json`, yet resolution succeeds
because the code first trims surrounding whitespace — the claimed
"fails for every input not ending in the suffix" is false, and more than
the suffix/slash can be stripped from the raw input. -/
theorem manifest_resolver_trim_cex :
    endsWithStr "https://host/path/manifest.json " "/manifest.json" = false ∧
    getBaseUrlFromManifest "https://host/path/manifest.json " =
      Except.ok "https://host/path" := by
  constructor
  · decide
  · rfl

/-- Claim C4 (corrected): after the initial whitespace trim (which the
claim omits), the resolver behaves exactly as claimed: a trimmed input of
the shape `r ++ "/manifest.json"` or `r ++ "/manifest.json/"` resolves to
exactly `r`, and every trimmed input of neither shape fails with the fixed
error. -/
theorem manifest_resolver_after_trim (u r : String) (htrim : jsTrim u = u) :
    (u = r ++ "/manifest.json" → getBaseUrlFromManifest u = Except.ok r) ∧
    (u = r ++ "/manifest.json/" → getBaseUrlFromManifest u = Except.ok r) ∧
    ((∀ q : String, u ≠ q ++ "/manifest.json" ∧ u ≠ q ++ "/manifest.json/") →
      getBaseUrlFromManifest u = Except.error
        "Invalid manifest URL format: Invalid manifest URL. Must end with /manifest.json") := by
  refine ⟨?_, ?_, ?_⟩
  · intro h1
    have hA : endsWithStr u "/" = false := by
      rw [h1]
      exact @ends_append_ne r "/manifest.json" "/" 'n' '/'
        ['o', 's', 'j', '.', 't', 's', 'e', 'f', 'i', 'n', 'a', 'm', '/'] []
        (by decide) (by decide) (by decide)
    have hB : endsWithStr u "/manifest.json" = true := by
      rw [h1]; exact endsWithStr_append r _
    simp only [getBaseUrlFromManifest, htrim, hA, Bool.false_eq_true, if_false, hB, if_true]
    rw [h1, show (14 : Nat) = ("/manifest.json" : String).data.length from by decide,
      dropRightStr_append]
  · intro h2
    have hsplit : u = (r ++ "/manifest.json") ++ "/" := by
      rw [h2, str_append_assoc,
        show ("/manifest.json" : String) ++ "/" = "/manifest.json/" from by decide]
    have hA : endsWithStr u "/" = true := by
      rw [hsplit]; exact endsWithStr_append _ _
    have hdrop : dropRightStr u 1 = r ++ "/manifest.json" := by
      rw [hsplit, show (1 : Nat) = ("/" : String).data.length from by decide,
        dropRightStr_append]
    have hB : endsWithStr (dropRightStr u 1) "/manifest.json" = true := by
      rw [hdrop]; exact endsWithStr_append _ _
    simp only [getBaseUrlFromManifest, htrim, hA, if_true, hB]
    rw [hdrop, show (14 : Nat) = ("/manifest.json" : String).data.length from by decide,
      dropRightStr_append]
  · intro h3
    cases hA : endsWithStr u "/" with
    | false =>
      cases hB : endsWithStr u "/manifest.json" with
      | true =>
        obtain ⟨q, hq⟩ := endsWithStr_exists hB
        exact absurd hq (h3 q).1
      | false =>
        simp only [getBaseUrlFromManifest, htrim, hA, Bool.false_eq_true, if_false, hB]
    | true =>
      obtain ⟨q, hq⟩ := endsWithStr_exists hA
      have hdrop : dropRightStr u 1 = q := by
        rw [hq, show (1 : Nat) = ("/" : String).data.length from by decide,
          dropRightStr_append]
      cases hB : endsWithStr (dropRightStr u 1) "/manifest.json" with
      | true =>
        rw [hdrop] at hB
        obtain ⟨p, hp⟩ := endsWithStr_exists hB
        have hu : u = p ++ "/manifest.json/" := by
          rw [hq, hp, str_append_assoc,
            show ("/manifest.json" : String) ++ "/" = "/manifest.json/" from by decide]
        exact absurd hu (h3 p).2
      | false =>
        simp only [getBaseUrlFromManifest, htrim, hA, if_true, hB, Bool.false_eq_true,
          if_false]

/-- Witness for the corrected C4 on a concrete trimmed URL of each shape. -/
theorem manifest_resolver_after_trim_witness :
    jsTrim "https://host/a/manifest.json" = "https://host/a/manifest.json" ∧
    ("https://host/a/manifest.json" = "https://host/a" ++ "/manifest.json" ∧
      getBaseUrlFromManifest "https://host/a/manifest.json" = Except.ok "https://host/a") :=
  ⟨by decide,
    by decide,
    (manifest_resolver_after_trim "https://host/a/manifest.json" "https://host/a"
      (by decide)).1 (by decide)⟩

end Stremio2Embedin
